import Mathlib

/-! Shallow embedding of the DinoTube player control engine
    (`src/App.tsx`): catalog data model, YouTube URL id resolver, player
    state machine, gesture handlers, autoplay sequencer and feed reveal
    controller, together with theorems checking the specification's
    claims against the embedded code. Machine numbers are modelled as
    exact rationals. -/

/-- Media kind of a catalog item (`mediaType` in the source data). -/
inductive MediaType
  | native
  | youtube
deriving DecidableEq

/-- Modelled from the spec: the catalog item record supplied by
    `data/videos.ts` (external data, not among the sources);
    `categorySlug` stands for `category.slug`. Only the fields the
    player code reads are kept. -/
structure VideoItem where
  id : Nat
  slug : String
  title : String
  categorySlug : String
  mediaType : MediaType
  mediaUrl : String
  durationSeconds : ℚ
deriving DecidableEq

/-- JS `a || b` on numbers: `0` is the falsy numeric value. -/
def jsOr (a b : ℚ) : ℚ := if a = 0 then b else a

/-- If `sep` is a prefix of `s`, return the rest of `s` after it. -/
def takePrefixRest : List Char → List Char → Option (List Char)
  | [], s => some s
  | _ :: _, [] => none
  | a :: sp, b :: s => if a = b then takePrefixRest sp s else none

/-- Leftmost occurrence of `sep` in `s`: `some (before, after)` splits
    `s` around the first occurrence, `none` when `sep` never occurs.
    This is the scan JS `String.prototype.split` performs. -/
def splitFirst (sep : List Char) : List Char → Option (List Char × List Char)
  | [] => (takePrefixRest sep []).map (fun tail => (([] : List Char), tail))
  | c :: rest =>
    match takePrefixRest sep (c :: rest) with
    | some tail => some (([] : List Char), tail)
    | none => (splitFirst sep rest).map (fun p => (c :: p.1, p.2))

/-- JS `s.split(sep)[1]`: the segment after the first occurrence of
    `sep`, cut at the second occurrence when one exists; `none` when
    `sep` does not occur. -/
def jsSegmentAfter (sep s : List Char) : Option (List Char) :=
  match splitFirst sep s with
  | none => none
  | some (_, tail) =>
    match splitFirst sep tail with
    | none => some tail
    | some (seg, _) => some seg

/-- JS `seg.split(/[?&]/)[0]`: the segment up to the first `?` or `&`. -/
def cutAtQueryAmp (s : List Char) : List Char :=
  s.takeWhile (fun c => !(c == '?' || c == '&'))

/-- One URL shape of `getYouTubeId`: the guarded
    `if (url.includes(sep)) { const id = url.split(sep)[1]?.split(/[?&]/)[0]; if (id) return id; }`
    block, as an `Option`-valued attempt. -/
def tryShape (sep s : List Char) : Option (List Char) :=
  match jsSegmentAfter sep s with
  | none => none
  | some seg =>
    let id := cutAtQueryAmp seg
    if id.isEmpty then none else some id

/-- `getYouTubeId` from `src/App.tsx`: tries `embed/`, `watch?v=`,
    `youtu.be/` in order, falling back to `fallback`. -/
def getYouTubeId (url fallback : String) : String :=
  match tryShape "embed/".data url.data with
  | some id => String.mk id
  | none =>
    match tryShape "watch?v=".data url.data with
    | some id => String.mk id
    | none =>
      match tryShape "youtu.be/".data url.data with
      | some id => String.mk id
      | none => fallback

/-- Presentation mode of the player (`PlayerMode` in the source). -/
inductive PlayerMode
  | hidden
  | full
  | mini
deriving DecidableEq

/-- The native `<video>` element handle (`videoRef.current`): only its
    playback position is relevant to the claims. -/
structure NativeVideo where
  currentTime : ℚ
deriving DecidableEq

/-- The remote embedded player handle (`ytPlayerRef.current`): its
    reported playback position and duration. -/
structure YTPlayer where
  currentTime : ℚ
  duration : ℚ
deriving DecidableEq

/-- The `nextCountdown` state: `{ seconds, nextVideo }`. -/
structure Countdown where
  seconds : ℚ
  nextVideo : VideoItem
deriving DecidableEq

/-- The component state of `App`: every `useState` hook plus the refs
    and pending close-grace timers the claims are about.
    `pendingGrace` counts the `setTimeout(() => setActiveVideo(null), 220)`
    callbacks scheduled by `closePlayer` and not yet fired. -/
structure AppState where
  activeVideo : Option VideoItem
  playerMode : PlayerMode
  isPlaying : Bool
  currentTime : ℚ
  duration : ℚ
  relatedOpen : Bool
  dragOffset : ℚ
  isDragging : Bool
  dragStartY : ℚ
  touchStartY : ℚ
  skipIndicator : Option String
  nextCountdown : Option Countdown
  visibleCategoryCount : Nat
  ytLoaded : Bool
  pendingGrace : Nat
  videoElem : Option NativeVideo
  ytPlayer : Option YTPlayer
deriving DecidableEq

/-- The initial component state: the `useState`/`useRef` initial values. -/
def initialState : AppState where
  activeVideo := none
  playerMode := PlayerMode.hidden
  isPlaying := false
  currentTime := 0
  duration := 0
  relatedOpen := false
  dragOffset := 0
  isDragging := false
  dragStartY := 0
  touchStartY := 0
  skipIndicator := none
  nextCountdown := none
  visibleCategoryCount := 2
  ytLoaded := false
  pendingGrace := 0
  videoElem := none
  ytPlayer := none

/-- `isYouTube = Boolean(activeVideo?.mediaType === "YOUTUBE")`. -/
def AppState.isYouTube (s : AppState) : Bool :=
  match s.activeVideo with
  | some v => v.mediaType == MediaType.youtube
  | none => false

/-- `activeVideo?.durationSeconds`, with JS `undefined` collapsing to the
    falsy `0` consumed by the enclosing `||` chains. -/
def activeDurationSeconds (s : AppState) : ℚ :=
  match s.activeVideo with
  | some v => v.durationSeconds
  | none => 0

/-- `ytControlsDisabled = isYouTube && !ytLoaded`. -/
def ytControlsDisabled (s : AppState) : Bool :=
  s.isYouTube && !s.ytLoaded

/-- `relatedVideos` body for a given active item: the order-preserving
    filter of the catalog by the active item's category slug. -/
def relatedOf (catalog : List VideoItem) (v : VideoItem) : List VideoItem :=
  catalog.filter (fun w => w.categorySlug == v.categorySlug)

/-- The `relatedVideos` memo: empty when no video is active. -/
def relatedVideos (catalog : List VideoItem) (s : AppState) : List VideoItem :=
  match s.activeVideo with
  | none => []
  | some v => relatedOf catalog v

/-- `playVideo`: open an item; always enters full mode and resets the
    session-level state. -/
def playVideo (v : VideoItem) (s : AppState) : AppState :=
  { s with
    activeVideo := some v
    playerMode := PlayerMode.full
    relatedOpen := false
    currentTime := 0
    duration := 0
    ytLoaded := false
    nextCountdown := none }

/-- `closePlayer`: hide the player, clear sheet and countdown, and
    schedule (without keeping a cancel handle) the 220ms grace teardown
    `setTimeout(() => setActiveVideo(null), 220)`. -/
def closePlayer (s : AppState) : AppState :=
  { s with
    playerMode := PlayerMode.hidden
    relatedOpen := false
    nextCountdown := none
    pendingGrace := s.pendingGrace + 1 }

/-- A scheduled grace-teardown callback fires: `setActiveVideo(null)`.
    Nothing in the source ever calls `clearTimeout` on this timer. -/
def fireGraceTimer (s : AppState) : AppState :=
  if s.pendingGrace = 0 then s
  else { s with activeVideo := none, pendingGrace := s.pendingGrace - 1 }

/-- `handleVideoEnded`: when at least two related items exist, arm the
    2-second autoplay countdown on the follower of the active item in
    the related list (JS `findIndex` yields `-1`, hence slot `0`, when
    the id is absent; the `getD` default is unreachable since the
    selected index is `< length`). -/
def handleVideoEnded (catalog : List VideoItem) (s : AppState) : AppState :=
  match s.activeVideo with
  | none => s
  | some v =>
    let related := relatedOf catalog v
    if related.length < 2 then s
    else
      let nextIdx :=
        match related.findIdx? (fun w => w.id == v.id) with
        | some i => (i + 1) % related.length
        | none => 0
      { s with nextCountdown := some ⟨2, related.getD nextIdx v⟩ }

/-- One run of the countdown effect: at `seconds ≤ 0` it opens the next
    item and clears the countdown; otherwise the scheduled 1-second
    timer decrements `seconds` by one. -/
def countdownStep (s : AppState) : AppState :=
  match s.nextCountdown with
  | none => s
  | some c =>
    if c.seconds ≤ 0 then
      { playVideo c.nextVideo s with nextCountdown := none }
    else
      { s with nextCountdown := some ⟨c.seconds - 1, c.nextVideo⟩ }

/-- The duration fallback chain of the embedded skip path:
    `getDuration() || duration || activeVideo?.durationSeconds || 0`. -/
def ytEffectiveTotal (s : AppState) (p : YTPlayer) : ℚ :=
  jsOr p.duration (jsOr s.duration (jsOr (activeDurationSeconds s) 0))

/-- The duration fallback chain of the native skip path:
    `duration || activeVideo?.durationSeconds || 0`. -/
def nativeEffectiveTotal (s : AppState) : ℚ :=
  jsOr s.duration (jsOr (activeDurationSeconds s) 0)

/-- `skipBy(amount)`: embedded branch seeks the remote player to the
    clamped target unless the effective duration is falsy (`!total`),
    the native branch writes the clamped target to the media element. -/
def skipBy (amount : ℚ) (s : AppState) : AppState :=
  if s.isYouTube && s.ytPlayer.isSome && s.ytLoaded then
    match s.ytPlayer with
    | none => s
    | some p =>
      let current := jsOr p.currentTime 0
      let total := ytEffectiveTotal s p
      if total = 0 then s
      else
        let nextTime := min (max 0 (current + amount)) total
        { s with
          ytPlayer := some { p with currentTime := nextTime }
          currentTime := nextTime
          skipIndicator := some (if amount > 0 then "+10s" else "-10s") }
  else
    match s.videoElem with
    | none => s
    | some w =>
      let nextTime := min (max 0 (w.currentTime + amount)) (nativeEffectiveTotal s)
      { s with
        videoElem := some ⟨nextTime⟩
        skipIndicator := some (if amount > 0 then "+10s" else "-10s") }

/-- `handleSeek(value)`: both branches hand the raw value to the backend
    and store it, with no clamping. -/
def handleSeek (value : ℚ) (s : AppState) : AppState :=
  if s.isYouTube && s.ytPlayer.isSome && s.ytLoaded then
    match s.ytPlayer with
    | none => s
    | some p => { s with ytPlayer := some { p with currentTime := value }, currentTime := value }
  else
    match s.videoElem with
    | none => s
    | some _ => { s with videoElem := some ⟨value⟩, currentTime := value }

/-- `handlePlayerPointerDown`: starts a drag only in full mode and only
    outside `data-no-drag` regions. -/
def handlePlayerPointerDown (clientY : ℚ) (noDragTarget : Bool) (s : AppState) : AppState :=
  if s.playerMode = PlayerMode.full then
    if noDragTarget then s
    else { s with isDragging := true, dragStartY := clientY }
  else s

/-- `handlePlayerPointerMove`: rubber-band offset, downward only. -/
def handlePlayerPointerMove (clientY : ℚ) (s : AppState) : AppState :=
  if s.isDragging = true then
    { s with dragOffset := max 0 (clientY - s.dragStartY) }
  else s

/-- `handlePlayerPointerUp` (also pointer-cancel): commit to mini when
    the offset exceeds `0.22 * innerHeight`, then reset the offset. -/
def handlePlayerPointerUp (viewportHeight : ℚ) (s : AppState) : AppState :=
  if s.isDragging = true then
    let s1 := { s with isDragging := false }
    let s2 :=
      if s1.dragOffset > viewportHeight * (22 / 100) then
        { s1 with playerMode := PlayerMode.mini, relatedOpen := false }
      else s1
    { s2 with dragOffset := 0 }
  else s

/-- `handleWheel`: edge-triggered sheet toggle, guarded by full mode;
    the two branches are mutually exclusive. -/
def handleWheel (deltaY : ℚ) (s : AppState) : AppState :=
  if s.playerMode = PlayerMode.full then
    if deltaY > 20 ∧ s.relatedOpen = false then { s with relatedOpen := true }
    else if deltaY < -20 ∧ s.relatedOpen = true then { s with relatedOpen := false }
    else s
  else s

/-- `handleTouchStart`: records the start Y (`touches[0]?.clientY ?? 0`
    is passed in resolved). No mode guard in the source. -/
def handleTouchStart (y : ℚ) (s : AppState) : AppState :=
  { s with touchStartY := y }

/-- `handleTouchEnd`: swipe up beyond 50px opens the sheet, swipe down
    beyond 50px closes it. No mode guard in the source. -/
def handleTouchEnd (endY : ℚ) (s : AppState) : AppState :=
  let delta := s.touchStartY - endY
  if delta > 50 then { s with relatedOpen := true }
  else if delta < -50 then { s with relatedOpen := false }
  else s

/-- Events delivered by the embedded player: `onReady`, and
    `onStateChange` with the remote `YT.PlayerState` code
    (ENDED = 0, PLAYING = 1, PAUSED = 2). -/
inductive YTEvent
  | onReady
  | onStateChange (data : Int)
deriving DecidableEq

/-- The `events` callbacks wired into the embedded player constructor. -/
def ytEventStep (catalog : List VideoItem) (e : YTEvent) (s : AppState) : AppState :=
  match e with
  | YTEvent.onReady =>
    let d := match s.ytPlayer with
      | some p => jsOr p.duration 0
      | none => 0
    { s with duration := d, currentTime := 0, isPlaying := true, ytLoaded := true }
  | YTEvent.onStateChange data =>
    let s1 := if data = 1 then { s with isPlaying := true, ytLoaded := true } else s
    let s2 := if data = 2 then { s1 with isPlaying := false } else s1
    if data = 0 then handleVideoEnded catalog { s2 with isPlaying := false } else s2

/-- Fold a list of embedded-player events over the state. -/
def runYTEvents (catalog : List VideoItem) (evs : List YTEvent) (s : AppState) : AppState :=
  evs.foldl (fun t e => ytEventStep catalog e t) s

/-- Events that set `ytLoaded` in the source: `onReady`, and
    `onStateChange` with the PLAYING code. -/
def ytEnablesControls (e : YTEvent) : Bool :=
  match e with
  | YTEvent.onReady => true
  | YTEvent.onStateChange d => d == 1

/-- An `onStateChange` event carrying the PLAYING code. -/
def isPlayingEvent (e : YTEvent) : Bool :=
  match e with
  | YTEvent.onStateChange d => d == 1
  | YTEvent.onReady => false

/-- `useState(2)` initial value of `visibleCategoryCount`. -/
def initialVisibleCount : Nat := 2

/-- The feed sentinel is rendered iff `visibleCategoryCount` is below
    the number of category groups. -/
def sentinelVisible (totalGroups count : Nat) : Bool :=
  count < totalGroups

/-- One sentinel intersection:
    `setVisibleCategoryCount(prev => Math.min(prev + 1, categoryGroups.length))`. -/
def revealStep (totalGroups count : Nat) : Nat :=
  min (count + 1) totalGroups

/-- Values `visibleCategoryCount` can reach: the initial value, and one
    guarded intersection step at a time (the sentinel can only intersect
    while it is rendered). `totalGroups` abstracts the length of the
    external `categoryGroups` data. -/
inductive FeedReach (totalGroups : Nat) : Nat → Prop
  | init : FeedReach totalGroups initialVisibleCount
  | step {c : Nat} : FeedReach totalGroups c → sentinelVisible totalGroups c = true →
      FeedReach totalGroups (revealStep totalGroups c)

/-- Sample native catalog item. -/
def vidA : VideoItem :=
  ⟨1, "alpha", "Alpha", "dino", MediaType.native, "https://example.com/a.mp4", 100⟩

/-- Second sample native catalog item, same category as `vidA`. -/
def vidB : VideoItem :=
  ⟨2, "beta", "Beta", "dino", MediaType.native, "https://example.com/b.mp4", 80⟩

/-- Sample embedded (YouTube) catalog item. -/
def ytVid : VideoItem :=
  ⟨3, "gamma", "Gamma", "dino", MediaType.youtube,
    "https://www.youtube.com/watch?v=abc", 120⟩

/-- Embedded item whose `durationSeconds` is 0: every entry of the skip
    duration fallback chain can then be 0. -/
def ytVid0 : VideoItem :=
  ⟨4, "delta", "Delta", "dino", MediaType.youtube,
    "https://www.youtube.com/watch?v=def", 0⟩

/-- A loaded embedded session whose player reports position 5 and
    duration 0, with the state duration and item duration also 0. -/
def sYT0 : AppState :=
  { playVideo ytVid0 initialState with
    ytPlayer := some ⟨5, 0⟩
    ytLoaded := true
    currentTime := 5 }

/-- A loaded embedded session near the end of a 100-second video. -/
def sYT : AppState :=
  { playVideo ytVid initialState with
    ytPlayer := some ⟨95, 100⟩
    ytLoaded := true
    currentTime := 95
    duration := 100 }

/-- A native session at position 3 of a 100-second video. -/
def sNat : AppState :=
  { playVideo vidA initialState with
    videoElem := some ⟨3⟩
    duration := 100 }

/-- A full-mode session with an active drag, parameterised by the
    current rubber-band offset. -/
def sDrag (offset : ℚ) : AppState :=
  { playVideo vidA initialState with
    isDragging := true
    dragOffset := offset }

/-- A minimised session with a recorded touch start at `y = 100`. -/
def sMini : AppState :=
  { playVideo vidA initialState with
    playerMode := PlayerMode.mini
    touchStartY := 100 }

/-- Claim C2: `getYouTubeId` maps the four specified URL shapes as
    stated — `embed/`, `watch?v=` and `youtu.be/` segments cut at the
    first `?` or `&` — and returns the fallback whenever none of the
    three markers occurs in the URL. -/
theorem getYouTubeId_spec :
    (∀ fb : String, getYouTubeId ".../embed/abc123?x=1" fb = "abc123") ∧
    (∀ fb : String, getYouTubeId ".../watch?v=xyz789&t=5" fb = "xyz789") ∧
    (∀ fb : String, getYouTubeId "youtu.be/qrs456" fb = "qrs456") ∧
    (∀ fb : String, getYouTubeId "https://example.com/video" fb = fb) ∧
    (∀ url fb : String,
      splitFirst "embed/".data url.data = none →
      splitFirst "watch?v=".data url.data = none →
      splitFirst "youtu.be/".data url.data = none →
      getYouTubeId url fb = fb) := by
  refine ⟨fun fb => rfl, fun fb => rfl, fun fb => rfl, fun fb => rfl, ?_⟩
  intro url fb h1 h2 h3
  simp [getYouTubeId, tryShape, jsSegmentAfter, h1, h2, h3]

/-- Witness for C2: the fallback clause of `getYouTubeId_spec` at a URL
    containing none of the three markers. -/
theorem getYouTubeId_spec_witness :
    getYouTubeId "https://nothing.example/clip" "fallbackId" = "fallbackId" :=
  getYouTubeId_spec.2.2.2.2 "https://nothing.example/clip" "fallbackId"
    (by decide) (by decide) (by decide)

/-- Claim C8: `playVideo`, from any state, enters full mode, resets
    `currentTime` and `duration` to 0, clears the countdown, closes the
    related sheet, and activates the opened item. -/
theorem playVideo_resets (v : VideoItem) (s : AppState) :
    (playVideo v s).playerMode = PlayerMode.full ∧
    (playVideo v s).currentTime = 0 ∧
    (playVideo v s).duration = 0 ∧
    (playVideo v s).nextCountdown = none ∧
    (playVideo v s).relatedOpen = false ∧
    (playVideo v s).activeVideo = some v :=
  ⟨rfl, rfl, rfl, rfl, rfl, rfl⟩

/-- Claim C6 (code bug): `closePlayer` schedules the 220ms grace
    teardown without keeping a handle, and `playVideo` does not cancel
    it; when the timer fires after a new item was opened mid-grace, it
    still runs `setActiveVideo(null)` and destroys the new session. -/
theorem grace_timer_kills_new_session (s : AppState) (b : VideoItem) :
    (playVideo b (closePlayer s)).activeVideo = some b ∧
    (fireGraceTimer (playVideo b (closePlayer s))).activeVideo = none := by
  refine ⟨rfl, ?_⟩
  simp [closePlayer, playVideo, fireGraceTimer]

/-- Claim C3: releasing a drag in full mode commits to mini mode and
    closes the related sheet exactly when the offset strictly exceeds
    `0.22 * viewportHeight`, and otherwise only resets the offset to 0,
    leaving the mode full. -/
theorem pointerUp_commit_spec (vh : ℚ) (s : AppState)
    (hm : s.playerMode = PlayerMode.full) (hd : s.isDragging = true) :
    (s.dragOffset > vh * (22 / 100) →
      handlePlayerPointerUp vh s =
        { s with
          isDragging := false
          playerMode := PlayerMode.mini
          relatedOpen := false
          dragOffset := 0 }) ∧
    (¬ s.dragOffset > vh * (22 / 100) →
      handlePlayerPointerUp vh s = { s with isDragging := false, dragOffset := 0 } ∧
      (handlePlayerPointerUp vh s).playerMode = PlayerMode.full) := by
  constructor
  · intro hgt
    simp [handlePlayerPointerUp, hd, hgt]
  · intro hle
    constructor
    · simp [handlePlayerPointerUp, hd, hle]
    · simp [handlePlayerPointerUp, hd, hle, hm]

/-- Witness for C3 at `viewportHeight = 1000`: offset 221 commits to
    mini, offset 219 springs back with the mode still full. -/
theorem pointerUp_commit_spec_witness :
    (handlePlayerPointerUp 1000 (sDrag 221)).playerMode = PlayerMode.mini ∧
    (handlePlayerPointerUp 1000 (sDrag 219)).playerMode = PlayerMode.full ∧
    (handlePlayerPointerUp 1000 (sDrag 219)).dragOffset = 0 := by
  have h221 := (pointerUp_commit_spec 1000 (sDrag 221) rfl rfl).1 (by norm_num [sDrag, playVideo, initialState])
  have h219 := (pointerUp_commit_spec 1000 (sDrag 219) rfl rfl).2 (by norm_num [sDrag, playVideo, initialState])
  exact ⟨by rw [h221], h219.2, by rw [h219.1]⟩

/-- Claim C1 counterexample: in a loaded embedded session whose
    duration is 0 everywhere in the fallback chain and whose position is
    5, `skipBy 10` leaves the position at 5, while
    `clamp(currentTime + 10, 0, duration)` is 0: the embedded skip is a
    no-op on a zero duration, not a clamped seek. -/
theorem skipBy_zero_duration_not_clamped :
    (skipBy 10 sYT0).ytPlayer = some ⟨5, 0⟩ ∧
    (skipBy 10 sYT0).currentTime = 5 ∧
    min (max 0 ((5 : ℚ) + 10)) 0 = 0 ∧ (5 : ℚ) ≠ 0 := by
  refine ⟨by decide, by decide, by norm_num, by norm_num⟩

/-- Claim C1 (amended): skip clamps against the effective duration `D`
    of its fallback chain (backend-reported duration, else the state
    duration, else the item's `durationSeconds`). On the embedded
    backend, whenever `D ≠ 0`, the player position and `currentTime`
    both become `clamp(current + a, 0, D)` (when `D = 0` the call is a
    no-op); on the native backend the element's position always becomes
    the clamp against its chain. -/
theorem skipBy_clamps :
    (∀ (s : AppState) (p : YTPlayer) (a : ℚ),
      s.isYouTube = true → s.ytLoaded = true → s.ytPlayer = some p →
      ytEffectiveTotal s p ≠ 0 →
      (skipBy a s).ytPlayer
          = some ⟨min (max 0 (p.currentTime + a)) (ytEffectiveTotal s p), p.duration⟩ ∧
      (skipBy a s).currentTime = min (max 0 (p.currentTime + a)) (ytEffectiveTotal s p)) ∧
    (∀ (s : AppState) (w : NativeVideo) (a : ℚ),
      s.isYouTube = false → s.videoElem = some w →
      (skipBy a s).videoElem
          = some ⟨min (max 0 (w.currentTime + a)) (nativeEffectiveTotal s)⟩) := by
  constructor
  · intro s p a hyt hl hp htot
    have hcur : jsOr p.currentTime 0 = p.currentTime := by
      by_cases h : p.currentTime = 0 <;> simp [jsOr, h]
    simp [skipBy, hyt, hl, hp, htot, hcur]
  · intro s w a hyt hw
    simp [skipBy, hyt, hw]

/-- Witness for C1: the embedded branch skips from 95 over the end of a
    100-second video to exactly 100, and the native branch skips from 3
    back past the start to exactly 0. -/
theorem skipBy_clamps_witness :
    (skipBy 10 sYT).ytPlayer = some ⟨100, 100⟩ ∧
    (skipBy (-10) sNat).videoElem = some ⟨0⟩ := by
  constructor
  · have h := (skipBy_clamps.1 sYT ⟨95, 100⟩ 10 rfl rfl rfl (by decide)).1
    rw [h]
    norm_num [ytEffectiveTotal, jsOr, sYT, playVideo, initialState, activeDurationSeconds, ytVid]
  · have h := skipBy_clamps.2 sNat ⟨3⟩ (-10) rfl rfl
    rw [h]
    norm_num [nativeEffectiveTotal, jsOr, sNat, playVideo, initialState, activeDurationSeconds, vidA]

/-- Claim C10: `handleSeek` applies no clamping — on a loaded embedded
    session it hands the raw value to the remote player and stores it,
    and on a native session it writes the raw value to the media element
    and stores it, for every value including negative ones and values
    beyond the duration. -/
theorem handleSeek_no_clamp :
    (∀ (s : AppState) (p : YTPlayer) (value : ℚ),
      s.isYouTube = true → s.ytLoaded = true → s.ytPlayer = some p →
      (handleSeek value s).ytPlayer = some ⟨value, p.duration⟩ ∧
      (handleSeek value s).currentTime = value) ∧
    (∀ (s : AppState) (w : NativeVideo) (value : ℚ),
      s.isYouTube = false → s.videoElem = some w →
      (handleSeek value s).videoElem = some ⟨value⟩ ∧
      (handleSeek value s).currentTime = value) := by
  constructor
  · intro s p value hyt hl hp
    simp [handleSeek, hyt, hl, hp]
  · intro s w value hyt hw
    simp [handleSeek, hyt, hw]

/-- Witness for C10: seeking to -5 and to 250 (beyond the 100-second
    duration) lands exactly there on both backends. -/
theorem handleSeek_no_clamp_witness :
    (handleSeek (-5) sYT).ytPlayer = some ⟨-5, 100⟩ ∧
    (handleSeek (-5) sYT).currentTime = -5 ∧
    (handleSeek 250 sNat).videoElem = some ⟨250⟩ ∧
    (handleSeek 250 sNat).currentTime = 250 := by
  have h1 := handleSeek_no_clamp.1 sYT ⟨95, 100⟩ (-5) rfl rfl rfl
  have h2 := handleSeek_no_clamp.2 sNat ⟨3⟩ 250 rfl rfl
  exact ⟨h1.1, h1.2, h2.1, h2.2⟩

/-- `handleVideoEnded` never touches the `ytLoaded` flag. -/
theorem handleVideoEnded_ytLoaded (catalog : List VideoItem) (s : AppState) :
    (handleVideoEnded catalog s).ytLoaded = s.ytLoaded := by
  unfold handleVideoEnded
  cases s.activeVideo with
  | none => rfl
  | some v =>
    dsimp only
    split <;> rfl

/-- `handleVideoEnded` never changes the active video. -/
theorem handleVideoEnded_activeVideo (catalog : List VideoItem) (s : AppState) :
    (handleVideoEnded catalog s).activeVideo = s.activeVideo := by
  unfold handleVideoEnded
  cases h : s.activeVideo with
  | none => simp [h]
  | some v =>
    dsimp only
    split <;> simp [h]

/-- One embedded-player event sets `ytLoaded` exactly when it is
    `onReady` or a PLAYING state change, and never clears it. -/
theorem ytEventStep_ytLoaded (catalog : List VideoItem) (e : YTEvent) (s : AppState) :
    (ytEventStep catalog e s).ytLoaded = (s.ytLoaded || ytEnablesControls e) := by
  cases e with
  | onReady => simp [ytEventStep, ytEnablesControls]
  | onStateChange d =>
    simp only [ytEventStep, ytEnablesControls]
    split_ifs with h1 h2 h0 h0 h2 h0 h0 <;>
      simp_all [handleVideoEnded_ytLoaded]

/-- Embedded-player events never change the active video. -/
theorem ytEventStep_activeVideo (catalog : List VideoItem) (e : YTEvent) (s : AppState) :
    (ytEventStep catalog e s).activeVideo = s.activeVideo := by
  cases e with
  | onReady => rfl
  | onStateChange d =>
    simp only [ytEventStep]
    split_ifs <;> simp [handleVideoEnded_activeVideo]

/-- Over a whole event trace, `ytLoaded` is its starting value or-ed
    with "some event in the trace enables the controls". -/
theorem runYTEvents_ytLoaded (catalog : List VideoItem) (evs : List YTEvent) :
    ∀ s : AppState,
      (runYTEvents catalog evs s).ytLoaded = (s.ytLoaded || evs.any ytEnablesControls) := by
  induction evs with
  | nil => intro s; simp [runYTEvents]
  | cons e rest ih =>
    intro s
    have hstep : runYTEvents catalog (e :: rest) s
        = runYTEvents catalog rest (ytEventStep catalog e s) := rfl
    rw [hstep, ih, ytEventStep_ytLoaded, List.any_cons, Bool.or_assoc]

/-- Over a whole event trace, the active video never changes. -/
theorem runYTEvents_activeVideo (catalog : List VideoItem) (evs : List YTEvent) :
    ∀ s : AppState, (runYTEvents catalog evs s).activeVideo = s.activeVideo := by
  induction evs with
  | nil => intro s; simp [runYTEvents]
  | cons e rest ih =>
    intro s
    have hstep : runYTEvents catalog (e :: rest) s
        = runYTEvents catalog rest (ytEventStep catalog e s) := rfl
    rw [hstep, ih, ytEventStep_activeVideo]

/-- Claim C5 counterexample: a single `onReady` event — a trace with no
    `playing` state change at all — already sets `ytLoaded` on the fresh
    embedded session, so the skip/play/pause controls are enabled before
    the first `playing` event is observed. -/
theorem ytLoaded_true_without_playing :
    (runYTEvents [] [YTEvent.onReady] (playVideo ytVid initialState)).ytLoaded = true ∧
    ytControlsDisabled (runYTEvents [] [YTEvent.onReady] (playVideo ytVid initialState)) = false ∧
    [YTEvent.onReady].any isPlayingEvent = false := by
  exact ⟨by decide, by decide, by decide⟩

/-- Claim C5 (amended): after `playVideo` constructs an embedded
    session, `ytLoaded` is true exactly when the trace contains the
    `ready` event or a PLAYING state change — readiness also enables
    the controls, not only the first `playing` — and while the trace
    contains neither, the UI controls stay disabled. -/
theorem ytLoaded_iff_ready_or_playing :
    (∀ (catalog : List VideoItem) (evs : List YTEvent) (v : VideoItem) (s : AppState),
      (runYTEvents catalog evs (playVideo v s)).ytLoaded = evs.any ytEnablesControls) ∧
    (∀ (catalog : List VideoItem) (evs : List YTEvent) (v : VideoItem) (s : AppState),
      v.mediaType = MediaType.youtube →
      evs.any ytEnablesControls = false →
      ytControlsDisabled (runYTEvents catalog evs (playVideo v s)) = true) := by
  constructor
  · intro catalog evs v s
    rw [runYTEvents_ytLoaded]
    simp [playVideo]
  · intro catalog evs v s hv hno
    have hA : (runYTEvents catalog evs (playVideo v s)).activeVideo = some v := by
      rw [runYTEvents_activeVideo]
      rfl
    have hL : (runYTEvents catalog evs (playVideo v s)).ytLoaded = false := by
      rw [runYTEvents_ytLoaded]
      simp [playVideo, hno]
    simp [ytControlsDisabled, AppState.isYouTube, hA, hL, hv]

/-- Witness for C5 (amended): a PAUSED state change alone leaves the
    controls of a fresh embedded session disabled. -/
theorem ytLoaded_iff_ready_or_playing_witness :
    ytControlsDisabled
      (runYTEvents [] [YTEvent.onStateChange 2] (playVideo ytVid initialState)) = true :=
  ytLoaded_iff_ready_or_playing.2 [] [YTEvent.onStateChange 2] ytVid initialState
    rfl (by decide)

/-- Claim C7 counterexample: with the player minimised (mode is not
    full) and the sheet flag clear, a touch gesture ending 70px above
    its recorded start still flips the related-sheet flag —
    `handleTouchEnd` carries no mode guard in the source. -/
theorem touch_toggle_fires_in_mini :
    sMini.playerMode ≠ PlayerMode.full ∧
    sMini.relatedOpen = false ∧
    (handleTouchEnd 30 sMini).relatedOpen = true := by
  refine ⟨by decide, rfl, ?_⟩
  norm_num [handleTouchEnd, sMini, playVideo, initialState]

/-- Claim C7 (amended): the wheel recognizer and drag initiation are
    guarded by full mode, and pointer move/up act only on an active
    drag (which only full mode can start): outside full mode, wheel and
    pointer-down events leave the state unchanged, and with no active
    drag so do pointer-move/up; the touch sheet toggle, however, is not
    mode-guarded. -/
theorem gesture_guards :
    (∀ (s : AppState) (dy : ℚ), s.playerMode ≠ PlayerMode.full → handleWheel dy s = s) ∧
    (∀ (s : AppState) (y : ℚ) (ndrag : Bool), s.playerMode ≠ PlayerMode.full →
      handlePlayerPointerDown y ndrag s = s) ∧
    (∀ (s : AppState) (y : ℚ), s.isDragging = false → handlePlayerPointerMove y s = s) ∧
    (∀ (s : AppState) (vh : ℚ), s.isDragging = false → handlePlayerPointerUp vh s = s) := by
  refine ⟨?_, ?_, ?_, ?_⟩
  · intro s dy h
    simp [handleWheel, h]
  · intro s y nd h
    simp [handlePlayerPointerDown, h]
  · intro s y h
    simp [handlePlayerPointerMove, h]
  · intro s vh h
    simp [handlePlayerPointerUp, h]

/-- Witness for C7 (amended) on the minimised session: wheel, pointer
    down, move and up all leave the state untouched. -/
theorem gesture_guards_witness :
    handleWheel 30 sMini = sMini ∧
    handlePlayerPointerDown 10 false sMini = sMini ∧
    handlePlayerPointerMove 40 sMini = sMini ∧
    handlePlayerPointerUp 1000 sMini = sMini :=
  ⟨gesture_guards.1 sMini 30 (by decide),
   gesture_guards.2.1 sMini 10 false (by decide),
   gesture_guards.2.2.1 sMini 40 rfl,
   gesture_guards.2.2.2 sMini 1000 rfl⟩

/-- A countdown with positive seconds only decrements on a timer run. -/
theorem countdownStep_pos (s : AppState) (c : Countdown)
    (hc : s.nextCountdown = some c) (hpos : ¬ c.seconds ≤ 0) :
    countdownStep s = { s with nextCountdown := some ⟨c.seconds - 1, c.nextVideo⟩ } := by
  simp [countdownStep, hc, hpos]

/-- A countdown at (or below) zero fires: it opens the stored next item
    and clears the countdown state. -/
theorem countdownStep_fire (s : AppState) (c : Countdown)
    (hc : s.nextCountdown = some c) (hz : c.seconds ≤ 0) :
    countdownStep s = { playVideo c.nextVideo s with nextCountdown := none } := by
  simp [countdownStep, hc, hz]

/-- Claim C4: on the backend `ended` event the related set is the
    order-preserving category filter of the catalog (a sublist of the
    catalog, containing the active item whenever the catalog does);
    with fewer than 2 members nothing happens; otherwise the countdown
    is armed at 2 seconds on `related[(i + 1) % size]` for the active
    item's index `i`; each countdown timer run decrements the seconds
    by one, and reaching zero opens the selected item and clears the
    countdown state. -/
theorem autoplay_spec :
    (∀ (catalog : List VideoItem) (v : VideoItem),
      (relatedOf catalog v).Sublist catalog ∧
      (v ∈ catalog → v ∈ relatedOf catalog v)) ∧
    (∀ (catalog : List VideoItem) (s : AppState) (v : VideoItem),
      s.activeVideo = some v → (relatedOf catalog v).length < 2 →
      handleVideoEnded catalog s = s) ∧
    (∀ (catalog : List VideoItem) (s : AppState) (v : VideoItem) (i : Nat),
      s.activeVideo = some v → 2 ≤ (relatedOf catalog v).length →
      (relatedOf catalog v).findIdx? (fun w => w.id == v.id) = some i →
      (handleVideoEnded catalog s).nextCountdown
        = some ⟨2, (relatedOf catalog v).getD ((i + 1) % (relatedOf catalog v).length) v⟩) ∧
    (∀ (s : AppState) (c : Countdown), s.nextCountdown = some c → 0 < c.seconds →
      (countdownStep s).nextCountdown = some ⟨c.seconds - 1, c.nextVideo⟩) ∧
    (∀ (s : AppState) (c : Countdown), s.nextCountdown = some c → c.seconds ≤ 0 →
      countdownStep s = { playVideo c.nextVideo s with nextCountdown := none } ∧
      (countdownStep s).activeVideo = some c.nextVideo ∧
      (countdownStep s).nextCountdown = none ∧
      (countdownStep s).playerMode = PlayerMode.full) ∧
    (∀ (s : AppState) (nxt : VideoItem), s.nextCountdown = some ⟨2, nxt⟩ →
      (countdownStep (countdownStep (countdownStep s))).activeVideo = some nxt ∧
      (countdownStep (countdownStep (countdownStep s))).nextCountdown = none) := by
  refine ⟨?_, ?_, ?_, ?_, ?_, ?_⟩
  · intro catalog v
    exact ⟨List.filter_sublist catalog, fun hmem => by simp [relatedOf, List.mem_filter, hmem]⟩
  · intro catalog s v hv hlen
    simp [handleVideoEnded, hv, hlen]
  · intro catalog s v i hv hlen hidx
    simp [handleVideoEnded, hv, hidx, Nat.not_lt.mpr hlen]
  · intro s c hc hpos
    simp [countdownStep, hc, not_le.mpr hpos]
  · intro s c hc hz
    refine ⟨?_, ?_, ?_, ?_⟩ <;> simp [countdownStep, hc, hz, playVideo]
  · intro s nxt h2
    have e1 : countdownStep s = { s with nextCountdown := some ⟨1, nxt⟩ } := by
      rw [countdownStep_pos s ⟨2, nxt⟩ h2 (by norm_num)]
      norm_num
    have e2 : countdownStep (countdownStep s) = { s with nextCountdown := some ⟨0, nxt⟩ } := by
      rw [e1, countdownStep_pos _ ⟨1, nxt⟩ rfl (by norm_num)]
      norm_num
    have e3 : countdownStep (countdownStep (countdownStep s))
        = { playVideo nxt { s with nextCountdown := some ⟨0, nxt⟩ } with
            nextCountdown := none } := by
      rw [e2, countdownStep_fire _ ⟨0, nxt⟩ rfl (le_refl 0)]
    rw [e3]
    exact ⟨rfl, rfl⟩

/-- Witness for C4 on a two-item catalog sharing one category: ending
    item A arms a 2-second countdown on item B, and three countdown
    runs later B is the active session with the countdown cleared. -/
theorem autoplay_spec_witness :
    (handleVideoEnded [vidA, vidB] (playVideo vidA initialState)).nextCountdown
        = some ⟨2, vidB⟩ ∧
    (countdownStep (countdownStep (countdownStep
        (handleVideoEnded [vidA, vidB] (playVideo vidA initialState))))).activeVideo
        = some vidB := by
  have h3 := autoplay_spec.2.2.1 [vidA, vidB] (playVideo vidA initialState) vidA 0
    rfl (by decide) (by decide)
  have hc : (handleVideoEnded [vidA, vidB] (playVideo vidA initialState)).nextCountdown
      = some ⟨2, vidB⟩ := by
    rw [h3]
    decide
  have hrun := autoplay_spec.2.2.2.2.2
    (handleVideoEnded [vidA, vidB] (playVideo vidA initialState)) vidB hc
  exact ⟨hc, hrun.1⟩

/-- Claim C9 counterexample: with a single category group, the initial
    `visibleCategoryCount` of 2 is a reachable value that exceeds the
    total number of category groups. -/
theorem feedReveal_exceeds_total :
    FeedReach 1 2 ∧ 1 < 2 :=
  ⟨FeedReach.init, by omega⟩

/-- Claim C9 (amended): `visibleCategoryCount` starts at 2; every
    intersection of a rendered sentinel adds exactly 1 and never lowers
    the count; the sentinel is not rendered once the count reaches the
    group total; and provided there are at least 2 category groups, the
    count never exceeds the total (with fewer groups the initial value
    2 already exceeds it). -/
theorem feedReveal_invariants :
    (∀ total : Nat, FeedReach total initialVisibleCount) ∧
    (∀ total c : Nat, sentinelVisible total c = true → revealStep total c = c + 1) ∧
    (∀ total c : Nat, FeedReach total c → 2 ≤ c) ∧
    (∀ total c : Nat, sentinelVisible total c = true → c ≤ revealStep total c) ∧
    (∀ total c : Nat, 2 ≤ total → FeedReach total c → c ≤ total) ∧
    (∀ total c : Nat, total ≤ c → sentinelVisible total c = false) := by
  refine ⟨?_, ?_, ?_, ?_, ?_, ?_⟩
  · intro total
    exact FeedReach.init
  · intro total c h
    simp only [sentinelVisible, decide_eq_true_eq] at h
    simp only [revealStep]
    omega
  · intro total c h
    induction h with
    | init => simp [initialVisibleCount]
    | step hr hs ih =>
      simp only [sentinelVisible, decide_eq_true_eq] at hs
      simp only [revealStep]
      omega
  · intro total c h
    simp only [sentinelVisible, decide_eq_true_eq] at h
    simp only [revealStep]
    omega
  · intro total c htot h
    induction h with
    | init => simpa [initialVisibleCount] using htot
    | step hr hs ih =>
      simp only [sentinelVisible, decide_eq_true_eq] at hs
      simp only [revealStep]
      omega
  · intro total c h
    simp only [sentinelVisible, decide_eq_false_iff_not]
    omega

/-- Witness for C9 (amended) with 5 groups: the intersection at count 2
    yields exactly 3, the reachable count 3 respects the cap, and at
    count 5 the sentinel is no longer rendered. -/
theorem feedReveal_invariants_witness :
    revealStep 5 2 = 2 + 1 ∧ (3 : Nat) ≤ 5 ∧ sentinelVisible 5 5 = false :=
  ⟨feedReveal_invariants.2.1 5 2 (by decide),
   feedReveal_invariants.2.2.2.2.1 5 3 (by omega)
     (FeedReach.step FeedReach.init (by decide)),
   feedReveal_invariants.2.2.2.2.2 5 5 (by omega)⟩
